import Mathlib

/-!
Verification of the Hildebrand Glow Python client library (`hildebrand.py`)
against its natural-language specification.

The Python module is shallowly embedded: numbers appearing in dynamic
positions are modelled by an explicit value type `PyVal` (Python
distinguishes `int` from `float`, and operators such as `*` behave
differently on strings, so the distinction is observable); stateful methods
of the `Glow` class become explicit state-passing functions over a
`GlowState` record; the network transport is modelled by an `Oracle` giving
the response of each endpoint, together with an explicit log of issued
`Request`s; Python exceptions become `Except PyErr`.  Python `float`
arithmetic is modelled over `ℚ` (the claims under study are algebraic
identities on small decimal values, where IEEE rounding is not at issue).
-/

/-- A Python runtime value, restricted to the shapes that can reach
`toCost` from JSON-decoded responses: integers, floats (modelled over ℚ),
strings, and `None`. -/
inductive PyVal where
  | int (n : ℤ)
  | float (q : ℚ)
  | str (s : String)
  | none
deriving Repr, DecidableEq

/-- Python string repetition `s * n` (empty for `n ≤ 0`). -/
def strRepeat (s : String) (n : ℤ) : String :=
  String.join (List.replicate n.toNat s)

/-- Python true division `a / b`.  `int / int` and mixed numeric division
produce a float; division by zero and division of non-numeric values raise
(`none` here means an exception is raised). -/
def pyDiv : PyVal → PyVal → Option PyVal
  | .int n, .int m => if m = 0 then Option.none else some (.float ((n : ℚ) / (m : ℚ)))
  | .int n, .float q => if q = 0 then Option.none else some (.float ((n : ℚ) / q))
  | .float p, .int m => if m = 0 then Option.none else some (.float (p / (m : ℚ)))
  | .float p, .float q => if q = 0 then Option.none else some (.float (p / q))
  | _, _ => Option.none

/-- Python multiplication `a * b`.  Numeric × numeric multiplies (int×int
stays int, anything involving a float is a float); a string times an `int`
is sequence repetition; every other combination raises (`none`). -/
def pyMul : PyVal → PyVal → Option PyVal
  | .int n, .int m => some (.int (n * m))
  | .int n, .float q => some (.float ((n : ℚ) * q))
  | .float p, .int m => some (.float (p * (m : ℚ)))
  | .float p, .float q => some (.float (p * q))
  | .str s, .int n => some (.str (strRepeat s n))
  | .int n, .str s => some (.str (strRepeat s n))
  | _, _ => Option.none

/-- The cost helper `toCost(rate, ammount, unit)` from `hildebrand.py` (the source spells
the parameter `ammount`):

    try:
        if unit == 'W': ammount = ammount/1000
        return ammount * rate
    except:
        return 0

The bare `except` catches any exception raised by the arithmetic, so the
model is a total function returning `.int 0` whenever `pyDiv`/`pyMul`
signal an exception. -/
def toCost (rate ammount : PyVal) (unit : String) : PyVal :=
  let scaled : Option PyVal :=
    if unit = "W" then pyDiv ammount (.int 1000) else some ammount
  match scaled.bind (fun a => pyMul a rate) with
  | some c => c
  | Option.none => .int 0

/-- Whether a `PyVal` is numeric (an int or a float). -/
def PyVal.isNum : PyVal → Bool
  | .int _ => true
  | .float _ => true
  | _ => false

/-- The rational value of a numeric `PyVal` (0 on non-numbers). -/
def PyVal.toQ : PyVal → ℚ
  | .int n => (n : ℚ)
  | .float q => q
  | _ => 0

/-- C4: for every numeric rate and numeric amount, `toCost(rate, amount,
unit)` equals `(amount/1000)*rate` when `unit` is exactly `"W"` and
`amount*rate` for every other unit; in particular
`toCost(0.15, 2000, "W") = 0.3` and `toCost(0.15, 2, "kWh") = 0.3`. -/
theorem toCost_numeric_eval :
    (∀ (rate ammount : PyVal) (unit : String), rate.isNum = true →
      ammount.isNum = true →
      (toCost rate ammount unit).isNum = true ∧
      (toCost rate ammount unit).toQ =
        (if unit = "W" then ammount.toQ / 1000 else ammount.toQ) * rate.toQ) ∧
    toCost (.float (15/100)) (.int 2000) "W" = .float (3/10) ∧
    toCost (.float (15/100)) (.int 2) "kWh" = .float (3/10) := by
  have hk : ¬ ("kWh" = "W") := by decide
  refine ⟨?_, by norm_num [toCost, pyDiv, pyMul],
    by norm_num [toCost, pyDiv, pyMul, hk]⟩
  intro rate ammount unit hr ha
  cases rate <;> cases ammount <;> simp [PyVal.isNum] at hr ha <;>
    by_cases h : unit = "W" <;>
    simp [toCost, pyDiv, pyMul, PyVal.isNum, PyVal.toQ, h]

/-- Witness for C4 at concrete numeric inputs. -/
theorem toCost_numeric_eval_witness :
    (toCost (.int 2) (.int 50) "kWh").isNum = true ∧
    (toCost (.int 2) (.int 50) "kWh").toQ =
      (if ("kWh") = ("W") then (PyVal.int 50).toQ / 1000 else (PyVal.int 50).toQ) *
        (PyVal.int 2).toQ :=
  toCost_numeric_eval.1 (.int 2) (.int 50) "kWh" (by decide) (by decide)

/-- C5 counterexample: with an integer rate and a string amount (a
non-numeric amount) and a unit other than `"W"`, Python evaluates
`ammount * rate` as string repetition, so `toCost(3, "ab", "kWh")` returns
the string `"ababab"`, not `0`. -/
theorem toCost_string_repetition :
    toCost (.int 3) (.str ("ab")) "kWh" = .str ("ababab") ∧
    toCost (.int 3) (.str ("ab")) "kWh" ≠ .int 0 := by
  constructor
  · rfl
  · decide

/-- C5 amended: `toCost` never raises (the bare `except` makes it total),
and on a non-numeric or missing amount it returns `0` in every case except
one: an integer rate together with a string amount and a unit other than
`"W"`, where Python's sequence repetition succeeds and the repeated string
is returned instead of `0`. -/
theorem toCost_nonnumeric_amount (rate : PyVal) (ammount : PyVal)
    (unit : String) (ha : ammount.isNum = false) :
    toCost rate ammount unit =
      match rate, ammount with
      | .int n, .str t => if unit = "W" then .int 0 else .str (strRepeat t n)
      | _, _ => .int 0 := by
  cases rate <;> cases ammount <;> simp [PyVal.isNum] at ha <;>
    by_cases h : unit = "W" <;>
    simp [toCost, pyDiv, pyMul, h]

/-- Witness for C5 amended: a `None` amount yields `0`. -/
theorem toCost_nonnumeric_amount_witness :
    toCost (.float (15/100)) .none ("kWh") = .int 0 :=
  toCost_nonnumeric_amount (.float (15/100)) .none ("kWh") (by decide)

/-- The JSON body of a successful authentication response (`token`,
`accountId`, `exp`, `functionalGroupAccounts`, `userGroups`). -/
structure AuthResp where
  token : String
  accountId : String
  exp : ℤ
  functionalGroupAccounts : List String
  userGroups : List String
deriving Repr, DecidableEq

/-- One element of the resource-listing response: a classifier tag and an
opaque resource identifier. -/
structure Descriptor where
  classifier : String
  resourceId : String
deriving Repr, DecidableEq

/-- A readings/current/meterread response body: a list of `[timestamp,
value]` data points plus a unit tag (and an opaque resource identifier
standing for all the fields the accessors leave untouched). -/
structure Reading where
  resourceId : String
  data : List (ℚ × ℚ)
  units : String
deriving Repr, DecidableEq

/-- One entry of a tariff `planDetail` array; entry 0 is read through its
`rate` key and entry 1 through its `standing` key. -/
structure PlanItem where
  rate : ℚ
  standing : ℚ
deriving Repr, DecidableEq

/-- One element of a tariff plan array, holding a `planDetail` array. -/
structure TariffPlan where
  planDetail : List PlanItem
deriving Repr, DecidableEq

/-- One element of a tariff `data` array, holding a `plan` array. -/
structure TariffData where
  plan : List TariffPlan
deriving Repr, DecidableEq

/-- A tariff response body, holding a `data` array. -/
structure TariffResp where
  data : List TariffData
deriving Repr, DecidableEq

/-- The mutable state of a `Glow` instance.  `elecConsumptionId` and
`gasConsumptionId` start out as Python attributes that do not exist until
`getResources` assigns them, modelled as `Option` fields that are `none`
until assigned (reading `none` raises `AttributeError`). -/
structure GlowState where
  appId : String
  username : String
  password : String
  token : String
  accountId : String
  expiration : ℤ
  functionalGroupAccounts : List String
  userGroups : List String
  elecConsumptionId : Option String
  gasConsumptionId : Option String
deriving Repr, DecidableEq

/-- A Python exception escaping a modelled call. -/
inductive PyErr where
  | authFailure
  | typeError
  | indexError
  | attributeError
  | urlError
  | timeoutError
  | recursionError
deriving Repr, DecidableEq

/-- A network request issued through `postRequest`, as observed at the API
surface.  `auth` records the credentials sent; `reading` records the query
parameters, with the `from`/`to` date-time strings abstracted to the
minute counts they render (`strftime('%Y-%m-%dT%H:%M:00')` zeroes the
seconds, so the rendering is determined by the minute count). -/
inductive Request where
  | auth (appId username password : String)
  | resources
  | reading (id : String) (dfrom dto : ℤ) (period : String) (offset : ℤ)
      (func : String)
  | current (id : String)
  | tariff (id : String)
  | meterread (id : String)
deriving Repr, DecidableEq

/-- The remote service, modelled as a fixed response per endpoint; `none`
is an absent result (what `postRequest` returns after an HTTP error). -/
structure Oracle where
  authResp : Option AuthResp
  resourceResp : Option (List Descriptor)
  readingResp : Option Reading
  currentResp : Option Reading
  tariffResp : Option TariffResp
  meterreadResp : Option Reading
deriving Repr, DecidableEq

/-- The body of the `getResources` loop:

    for r in resp:
        if r['classifier'] == 'electricity.consumption': self.elecConsumptionId = r['resourceId']
        if r['classifier'] == 'gas.consumption': self.gasConsumptionId = r['resourceId']

Each matching descriptor overwrites the stored identifier, so the last
match in the list wins. -/
def processResources (rs : List Descriptor) (s : GlowState) : GlowState :=
  rs.foldl (fun st r =>
    let st1 := if r.classifier = "electricity.consumption" then
      { st with elecConsumptionId := some r.resourceId } else st
    if r.classifier = "gas.consumption" then
      { st1 with gasConsumptionId := some r.resourceId } else st1) s

mutual

/-- The `Glow.accessToken` property.  If `expiration <= time.time()` it
re-authenticates with the stored credentials, overwrites the five session
fields from the response, and re-enters `getResources` (which itself reads
`accessToken` again); otherwise it returns the cached token.  A `None`
auth response makes `resp['token']` raise `TypeError`.  The mutual
recursion is fuel-bounded: exhausting fuel is Python's `RecursionError`,
reachable only if every fresh response is already expired.  Returns the
token, the new state, and the list of requests issued. -/
def accessTokenM (fuel : ℕ) (o : Oracle) (now : ℤ) (s : GlowState) :
    Except PyErr (String × GlowState × List Request) :=
  if s.expiration ≤ now then
    match fuel with
    | 0 => .error .recursionError
    | f + 1 =>
      match o.authResp with
      | Option.none => .error .typeError
      | some r =>
        let s1 : GlowState :=
          { s with token := r.token, accountId := r.accountId,
                   expiration := r.exp,
                   functionalGroupAccounts := r.functionalGroupAccounts,
                   userGroups := r.userGroups }
        match getResourcesM f o now s1 with
        | .error e => .error e
        | .ok (_, s2, reqs) =>
            .ok (s2.token, s2,
                 Request.auth s.appId s.username s.password :: reqs)
  else
    .ok (s.token, s, [])
termination_by (fuel, 0)

/-- The `Glow.getResources` property.  Builds the request header (reading
`accessToken`, which may refresh), posts to the resource endpoint, then
iterates over the response recording the electricity/gas consumption
identifiers.  Iterating over a `None` response raises `TypeError`.
Returns the descriptor list, the new state, and the requests issued. -/
def getResourcesM (fuel : ℕ) (o : Oracle) (now : ℤ) (s : GlowState) :
    Except PyErr (List Descriptor × GlowState × List Request) :=
  match accessTokenM fuel o now s with
  | .error e => .error e
  | .ok (_, s1, reqs) =>
    match o.resourceResp with
    | Option.none => .error .typeError
    | some rs => .ok (rs, processResources rs s1, reqs ++ [Request.resources])
termination_by (fuel, 1)

end

/-- The `Glow.__init__` constructor: posts the credentials, raises
`AuthFailure` on an absent response, otherwise populates every session
field from the response and finally evaluates `self.getResources`. -/
def glowInit (fuel : ℕ) (o : Oracle) (now : ℤ)
    (appId username password : String) : Except PyErr GlowState :=
  match o.authResp with
  | Option.none => .error .authFailure
  | some r =>
    let s : GlowState :=
      { appId := appId, username := username, password := password,
        token := r.token, accountId := r.accountId, expiration := r.exp,
        functionalGroupAccounts := r.functionalGroupAccounts,
        userGroups := r.userGroups,
        elecConsumptionId := Option.none, gasConsumptionId := Option.none }
    match getResourcesM fuel o now s with
    | .error e => .error e
    | .ok (_, s1, _) => .ok s1

/-- Model of `Glow.getReading`: builds the header (reading `accessToken`), posts to
`resource/{id}/readings` with the query parameters, and returns the raw
response.  The `from`/`to` date strings are abstracted to minute counts
(see `Request.reading`). -/
def getReadingM (fuel : ℕ) (o : Oracle) (now : ℤ) (s : GlowState)
    (id : String) (dfrom dto : ℤ) (period : String) (offset : ℤ)
    (func : String) :
    Except PyErr (Option Reading × GlowState × List Request) :=
  match accessTokenM fuel o now s with
  | .error e => .error e
  | .ok (_, s1, reqs) =>
      .ok (o.readingResp, s1,
           reqs ++ [Request.reading id dfrom dto period offset func])

/-- Model of `Glow.getCurResource`: builds the header (reading `accessToken`),
posts to `resource/{id}/current`, and returns the raw response. -/
def getCurResourceM (fuel : ℕ) (o : Oracle) (now : ℤ) (s : GlowState)
    (id : String) :
    Except PyErr (Option Reading × GlowState × List Request) :=
  match accessTokenM fuel o now s with
  | .error e => .error e
  | .ok (_, s1, reqs) => .ok (o.currentResp, s1, reqs ++ [Request.current id])

/-- Model of `Glow.getElecTariff` and `Glow.getGasTariff`: builds the header (reading
`accessToken`), reads the stored consumption identifier to build the URL
(raising `AttributeError` when it was never assigned), and posts to
`resource/{id}/tariff`. -/
def getTariffM (fuel : ℕ) (o : Oracle) (now : ℤ) (s : GlowState)
    (whichId : GlowState → Option String) :
    Except PyErr (Option TariffResp × GlowState × List Request) :=
  match accessTokenM fuel o now s with
  | .error e => .error e
  | .ok (_, s1, reqs) =>
    match whichId s1 with
    | Option.none => .error .attributeError
    | some id => .ok (o.tariffResp, s1, reqs ++ [Request.tariff id])

/-- Model of `Glow.getElecTariff`. -/
def getElecTariffM (fuel : ℕ) (o : Oracle) (now : ℤ) (s : GlowState) :
    Except PyErr (Option TariffResp × GlowState × List Request) :=
  getTariffM fuel o now s (fun st => st.elecConsumptionId)

/-- Model of `Glow.getGasTariff`. -/
def getGasTariffM (fuel : ℕ) (o : Oracle) (now : ℤ) (s : GlowState) :
    Except PyErr (Option TariffResp × GlowState × List Request) :=
  getTariffM fuel o now s (fun st => st.gasConsumptionId)

/-- Model of `Glow.getElecMeterRead`: builds the header, reads
`elecConsumptionId` to build the URL (`AttributeError` when unassigned),
posts to `resource/{id}/meterread`, and returns the raw response. -/
def getElecMeterReadM (fuel : ℕ) (o : Oracle) (now : ℤ) (s : GlowState) :
    Except PyErr (Option Reading × GlowState × List Request) :=
  match accessTokenM fuel o now s with
  | .error e => .error e
  | .ok (_, s1, reqs) =>
    match s1.elecConsumptionId with
    | Option.none => .error .attributeError
    | some id => .ok (o.meterreadResp, s1, reqs ++ [Request.meterread id])

/-- Evaluation of `tariffResponse['data'][0]['plan'][0]['planDetail']`:
subscripting `None` raises `TypeError`, an out-of-range index raises
`IndexError`. -/
def tariffDetail (t : Option TariffResp) : Except PyErr (List PlanItem) :=
  match t with
  | Option.none => .error .typeError
  | some tr =>
    match tr.data with
    | [] => .error .indexError
    | td :: _ =>
      match td.plan with
      | [] => .error .indexError
      | tp :: _ => .ok tp.planDetail

/-- A current-usage result: the (possibly patched) reading dict further
extended with `rate`, `standing` and `cost` keys. -/
structure EnrichedReading where
  reading : Reading
  rate : ℚ
  standing : ℚ
  cost : PyVal
deriving Repr, DecidableEq

/-- Model of `Glow.getElecCurrent`: fetches the current resource for
`elecConsumptionId` (reading the identifier first raises `AttributeError`
when unassigned), fetches the electricity tariff, extracts `rate` from
plan-detail index 0 and `standing` from index 1, and computes
`cost = toCost(rate, data[0][1], units)`. -/
def getElecCurrentM (fuel : ℕ) (o : Oracle) (now : ℤ) (s : GlowState) :
    Except PyErr (EnrichedReading × GlowState × List Request) :=
  match s.elecConsumptionId with
  | Option.none => .error .attributeError
  | some id =>
    match getCurResourceM fuel o now s id with
    | .error e => .error e
    | .ok (ret, s1, reqs1) =>
      match getElecTariffM fuel o now s1 with
      | .error e => .error e
      | .ok (tresp, s2, reqs2) =>
        match tariffDetail tresp with
        | .error e => .error e
        | .ok pd =>
          match pd with
          | [] => .error .indexError
          | p0 :: pdRest =>
            match ret with
            | Option.none => .error .typeError
            | some r =>
              match pdRest with
              | [] => .error .indexError
              | p1 :: _ =>
                match r.data with
                | [] => .error .indexError
                | d0 :: _ =>
                    .ok ({ reading := r, rate := p0.rate,
                           standing := p1.standing,
                           cost := toCost (.float p0.rate) (.float d0.2)
                                     r.units },
                         s2, reqs1 ++ reqs2)

/-- Model of `Glow.getGasCurrent`: computes the window `[now − 30min, now]` from
`datetime.today()`, fetches a `PT30M`/`sum` reading of
`gasConsumptionId` over that window (reading the identifier first raises
`AttributeError` when unassigned), fetches the plain current resource,
overwrites the current result's first data point with the window
reading's first data point, then fetches the gas tariff and sets `rate`,
`standing` and `cost = toCost(rate, data[0][1], units)` exactly as the
electricity accessor does.  `now` is the epoch-second clock used by the
token check and `nowMin` the minute count of the same instant used for
the window. -/
def getGasCurrentM (fuel : ℕ) (o : Oracle) (now nowMin : ℤ)
    (s : GlowState) :
    Except PyErr (EnrichedReading × GlowState × List Request) :=
  match s.gasConsumptionId with
  | Option.none => .error .attributeError
  | some id =>
    match getReadingM fuel o now s id (nowMin - 30) nowMin ("PT30M") 0 ("sum") with
    | .error e => .error e
    | .ok (gu, s1, reqs1) =>
      match s1.gasConsumptionId with
      | Option.none => .error .attributeError
      | some id2 =>
        match getCurResourceM fuel o now s1 id2 with
        | .error e => .error e
        | .ok (ret, s2, reqs2) =>
          match gu with
          | Option.none => .error .typeError
          | some g =>
            match g.data with
            | [] => .error .indexError
            | g0 :: _ =>
              match ret with
              | Option.none => .error .typeError
              | some r =>
                match r.data with
                | [] => .error .indexError
                | _ :: rRest =>
                  let patched : Reading := { r with data := g0 :: rRest }
                  match getGasTariffM fuel o now s2 with
                  | .error e => .error e
                  | .ok (tresp, s3, reqs3) =>
                    match tariffDetail tresp with
                    | .error e => .error e
                    | .ok pd =>
                      match pd with
                      | [] => .error .indexError
                      | p0 :: pdRest =>
                        match pdRest with
                        | [] => .error .indexError
                        | p1 :: _ =>
                            .ok ({ reading := patched, rate := p0.rate,
                                   standing := p1.standing,
                                   cost := toCost (.float p0.rate)
                                             (.float g0.2) patched.units },
                                 s3, reqs1 ++ reqs2 ++ reqs3)

/-- Model of `Glow.getGasMeterRead`: builds the header, reads `gasConsumptionId`
to build the URL (`AttributeError` when unassigned), fetches the
meter-read sub-resource, fetches the current gas consumption, and
overwrites the meter-read's first data point's timestamp with the
current fetch's first timestamp and its value with the current fetch's
first value times 1000; every other field of the meter-read response is
returned unchanged. -/
def getGasMeterReadM (fuel : ℕ) (o : Oracle) (now : ℤ) (s : GlowState) :
    Except PyErr (Reading × GlowState × List Request) :=
  match accessTokenM fuel o now s with
  | .error e => .error e
  | .ok (_, s1, reqs) =>
    match s1.gasConsumptionId with
    | Option.none => .error .attributeError
    | some id =>
      match s1.gasConsumptionId with
      | Option.none => .error .attributeError
      | some id2 =>
        match getCurResourceM fuel o now s1 id2 with
        | .error e => .error e
        | .ok (g, s2, reqs2) =>
          match g with
          | Option.none => .error .typeError
          | some gc =>
            match gc.data with
            | [] => .error .indexError
            | g0 :: _ =>
              match o.meterreadResp with
              | Option.none => .error .typeError
              | some ret =>
                match ret.data with
                | [] => .error .indexError
                | _ :: retRest =>
                    .ok ({ ret with data := (g0.1, g0.2 * 1000) :: retRest },
                         s2, reqs ++ [Request.meterread id] ++ reqs2)

/-- The outcome of the underlying `urllib.request.urlopen` call: a
successful response body, or one of the transport failures the claims
distinguish.  A non-2xx response is raised by `urlopen` as
`urllib.error.HTTPError`; a DNS failure is raised as
`urllib.error.URLError` (of which `HTTPError` is a subclass, not the
other way round); an elapsed timeout is raised as a socket timeout
error.  Only the first is matched by `except urllib.error.HTTPError`. -/
inductive TransportOutcome (α : Type) where
  | success (v : α)
  | httpError (code : ℤ) (reason : String)
  | dnsFailure (reason : String)
  | timeout
deriving Repr, DecidableEq

/-- The log line `postRequest` emits for a caught HTTP error
(`"code=%s, reason=%s" % (err.code, err.reason)`). -/
def logLine (code : ℤ) (reason : String) : String :=
  "code=" ++ toString code ++ ", reason=" ++ reason

/-- Model of `postRequest`: performs the transport call inside
`try: ... except urllib.error.HTTPError as err: log; return None`.  Only
`HTTPError` (a non-2xx response) is caught and converted to `None`; a
`URLError` from a DNS failure or a socket timeout does not match that
`except` clause and escapes as an exception.  Returns the result paired
with the list of emitted log lines. -/
def postRequestM (α : Type) (r : TransportOutcome α) :
    Except PyErr (Option α × List String) :=
  match r with
  | .success v => .ok (some v, [])
  | .httpError code reason => .ok (Option.none, [logLine code reason])
  | .dnsFailure _ => .error .urlError
  | .timeout => .error .timeoutError

/-- A concrete authentication response used by witnesses. -/
def sampleAuth : AuthResp :=
  { token := "tok2", accountId := "acct", exp := 100,
    functionalGroupAccounts := ["fga"], userGroups := ["ug"] }

/-- A concrete session state used by witnesses: token valid until 50,
both resource identifiers recorded. -/
def sampleState : GlowState :=
  { appId := "app", username := "user", password := "pw", token := "tok1",
    accountId := "acct", expiration := 50,
    functionalGroupAccounts := ["fga"], userGroups := ["ug"],
    elecConsumptionId := some ("E1"), gasConsumptionId := some ("G1") }

/-- A concrete session state used by witnesses whose resource identifiers
were never assigned. -/
def freshState : GlowState :=
  { sampleState with elecConsumptionId := Option.none,
                     gasConsumptionId := Option.none }

/-- A concrete service used by witnesses, matching the worked examples of
the specification: the resource listing of the `listResources` example, a
30-minute gas window reading `[T1, 7]` with `T1 = 1`, a current-resource
point `[T0, 5]` with `T0 = 0`, and a two-entry tariff plan detail. -/
def sampleOracle : Oracle :=
  { authResp := some sampleAuth,
    resourceResp := some
      [{ classifier := "electricity.consumption", resourceId := "E1" },
       { classifier := "gas.consumption", resourceId := "G1" },
       { classifier := "electricity.consumption.cost", resourceId := "E2" }],
    readingResp := some { resourceId := "G1", data := [(1, 7)], units := "kWh" },
    currentResp := some { resourceId := "G1", data := [(0, 5)], units := "kWh" },
    tariffResp := some
      { data := [{ plan := [{ planDetail :=
          [{ rate := 3/20, standing := 0 }, { rate := 0, standing := 1/4 }] }] }] },
    meterreadResp := some { resourceId := "G1", data := [(0, 100)], units := "m3" } }

/-- The body of the `getResources` loop for a single descriptor, named for
use in proofs (definitionally the function folded by `processResources`). -/
def processOne (st : GlowState) (r : Descriptor) : GlowState :=
  let st1 := if r.classifier = "electricity.consumption" then
    { st with elecConsumptionId := some r.resourceId } else st
  if r.classifier = "gas.consumption" then
    { st1 with gasConsumptionId := some r.resourceId } else st1

theorem processResources_eq_foldl (rs : List Descriptor) (s : GlowState) :
    processResources rs s = rs.foldl processOne s := rfl

theorem processOne_env (s : GlowState) (r : Descriptor) :
    (processOne s r).appId = s.appId ∧
    (processOne s r).username = s.username ∧
    (processOne s r).password = s.password ∧
    (processOne s r).token = s.token ∧
    (processOne s r).accountId = s.accountId ∧
    (processOne s r).expiration = s.expiration ∧
    (processOne s r).functionalGroupAccounts = s.functionalGroupAccounts ∧
    (processOne s r).userGroups = s.userGroups := by
  unfold processOne
  split <;> split <;> simp

/-- The `getResources` loop only writes the two resource-identifier
attributes; every other session field is left unchanged. -/
theorem processResources_env (rs : List Descriptor) (s : GlowState) :
    (processResources rs s).appId = s.appId ∧
    (processResources rs s).username = s.username ∧
    (processResources rs s).password = s.password ∧
    (processResources rs s).token = s.token ∧
    (processResources rs s).accountId = s.accountId ∧
    (processResources rs s).expiration = s.expiration ∧
    (processResources rs s).functionalGroupAccounts =
      s.functionalGroupAccounts ∧
    (processResources rs s).userGroups = s.userGroups := by
  induction rs generalizing s with
  | nil => exact ⟨rfl, rfl, rfl, rfl, rfl, rfl, rfl, rfl⟩
  | cons r rs ih =>
    obtain ⟨a1, a2, a3, a4, a5, a6, a7, a8⟩ := processOne_env s r
    obtain ⟨b1, b2, b3, b4, b5, b6, b7, b8⟩ := ih (processOne s r)
    exact ⟨b1.trans a1, b2.trans a2, b3.trans a3, b4.trans a4, b5.trans a5,
           b6.trans a6, b7.trans a7, b8.trans a8⟩

/-- Helper: on the fast path (a token that has not yet expired) the
`accessToken` property is pure. -/
theorem accessTokenM_fast (fuel : ℕ) (o : Oracle) (now : ℤ)
    (s : GlowState) (h : now < s.expiration) :
    accessTokenM fuel o now s = .ok (s.token, s, []) := by
  unfold accessTokenM
  rw [if_neg (by omega)]

/-- C1: for every session whose stored expiry is strictly greater than the
current time, reading `accessToken` returns the cached token, issues no
network request, and leaves the whole session state (token, expiry,
account identifier, functional-group-account list, user-group list,
resource identifiers) unchanged. -/
theorem accessToken_valid_noop (fuel : ℕ) (o : Oracle) (now : ℤ)
    (s : GlowState) (h : now < s.expiration) :
    accessTokenM fuel o now s = .ok (s.token, s, []) :=
  accessTokenM_fast fuel o now s h

/-- Witness for C1: a session whose expiry (50) exceeds the clock (10)
yields the cached token, the unchanged state, and an empty request log. -/
theorem accessToken_valid_noop_witness :
    accessTokenM 0 sampleOracle 10 sampleState =
      .ok (sampleState.token, sampleState, []) :=
  accessToken_valid_noop 0 sampleOracle 10 sampleState (by decide)

/-- C3: when the transport returns an absent response to the
authentication post, the constructor raises `AuthFailure`; the error
result carries no session state, so no session field is ever assigned on
that path. -/
theorem glowInit_authFailure (fuel : ℕ) (o : Oracle) (now : ℤ)
    (appId username password : String) (h : o.authResp = Option.none) :
    glowInit fuel o now appId username password = .error .authFailure := by
  unfold glowInit
  rw [h]

/-- Witness for C3 at a concrete oracle returning no auth body. -/
theorem glowInit_authFailure_witness :
    glowInit 1 { sampleOracle with authResp := Option.none } 10 ("app")
      ("user") ("pw") = .error .authFailure :=
  glowInit_authFailure 1 { sampleOracle with authResp := Option.none } 10
    ("app") ("user") ("pw") rfl

/-- C2: for every session whose stored expiry is at most the current time,
and a fresh authentication response (one whose expiry lies in the future,
as the identity endpoint guarantees for a newly issued token), reading
`accessToken` issues exactly one re-authentication request reusing the
stored appId, username and password (followed by the one resource-listing
request the refresh path triggers), replaces the token, account
identifier, expiry, functional-group-account list and user-group list
with the values of the new response, returns the new token, and leaves
the expiry strictly greater than it was before the call. -/
theorem accessToken_expired_refresh (fuel : ℕ) (o : Oracle) (now : ℤ)
    (s : GlowState) (r : AuthResp) (rs : List Descriptor)
    (hexp : s.expiration ≤ now) (hauth : o.authResp = some r)
    (hres : o.resourceResp = some rs) (hfresh : now < r.exp) :
    accessTokenM (fuel + 1) o now s =
      .ok (r.token,
        processResources rs
          { s with token := r.token, accountId := r.accountId,
                   expiration := r.exp,
                   functionalGroupAccounts := r.functionalGroupAccounts,
                   userGroups := r.userGroups },
        [Request.auth s.appId s.username s.password, Request.resources]) ∧
    (processResources rs
        { s with token := r.token, accountId := r.accountId,
                 expiration := r.exp,
                 functionalGroupAccounts := r.functionalGroupAccounts,
                 userGroups := r.userGroups }).token = r.token ∧
    (processResources rs
        { s with token := r.token, accountId := r.accountId,
                 expiration := r.exp,
                 functionalGroupAccounts := r.functionalGroupAccounts,
                 userGroups := r.userGroups }).accountId = r.accountId ∧
    (processResources rs
        { s with token := r.token, accountId := r.accountId,
                 expiration := r.exp,
                 functionalGroupAccounts := r.functionalGroupAccounts,
                 userGroups := r.userGroups }).expiration = r.exp ∧
    (processResources rs
        { s with token := r.token, accountId := r.accountId,
                 expiration := r.exp,
                 functionalGroupAccounts := r.functionalGroupAccounts,
                 userGroups := r.userGroups }).functionalGroupAccounts =
      r.functionalGroupAccounts ∧
    (processResources rs
        { s with token := r.token, accountId := r.accountId,
                 expiration := r.exp,
                 functionalGroupAccounts := r.functionalGroupAccounts,
                 userGroups := r.userGroups }).userGroups = r.userGroups ∧
    s.expiration <
      (processResources rs
        { s with token := r.token, accountId := r.accountId,
                 expiration := r.exp,
                 functionalGroupAccounts := r.functionalGroupAccounts,
                 userGroups := r.userGroups }).expiration := by
  set s1 : GlowState :=
    { s with token := r.token, accountId := r.accountId,
             expiration := r.exp,
             functionalGroupAccounts := r.functionalGroupAccounts,
             userGroups := r.userGroups } with hs1
  obtain ⟨-, -, -, e4, e5, e6, e7, e8⟩ := processResources_env rs s1
  have hs1exp : s1.expiration = r.exp := rfl
  have hnoop : accessTokenM fuel o now s1 = .ok (s1.token, s1, []) :=
    accessTokenM_fast fuel o now s1 (by rw [hs1exp]; exact hfresh)
  have hget : getResourcesM fuel o now s1 =
      .ok (rs, processResources rs s1, [Request.resources]) := by
    unfold getResourcesM
    rw [hnoop, hres]
    rfl
  constructor
  · unfold accessTokenM
    rw [if_pos hexp, hauth]
    simp only [hget, e4]
  · refine ⟨e4.trans rfl, e5.trans rfl, e6.trans hs1exp, e7.trans rfl,
      e8.trans rfl, ?_⟩
    rw [e6, hs1exp]
    omega

/-- Witness for C2: an expired session (expiry 50, clock 60) refreshed
from `sampleOracle` (new expiry 100). -/
theorem accessToken_expired_refresh_witness :
    accessTokenM 1 sampleOracle 60 sampleState =
      .ok (sampleAuth.token,
        processResources
          [{ classifier := "electricity.consumption", resourceId := "E1" },
           { classifier := "gas.consumption", resourceId := "G1" },
           { classifier := "electricity.consumption.cost", resourceId := "E2" }]
          { sampleState with token := sampleAuth.token,
                             accountId := sampleAuth.accountId,
                             expiration := sampleAuth.exp,
                             functionalGroupAccounts :=
                               sampleAuth.functionalGroupAccounts,
                             userGroups := sampleAuth.userGroups },
        [Request.auth sampleState.appId sampleState.username
           sampleState.password, Request.resources]) ∧
    (processResources
        [{ classifier := "electricity.consumption", resourceId := "E1" },
         { classifier := "gas.consumption", resourceId := "G1" },
         { classifier := "electricity.consumption.cost", resourceId := "E2" }]
        { sampleState with token := sampleAuth.token,
                           accountId := sampleAuth.accountId,
                           expiration := sampleAuth.exp,
                           functionalGroupAccounts :=
                             sampleAuth.functionalGroupAccounts,
                           userGroups := sampleAuth.userGroups }).token =
      sampleAuth.token ∧
    (processResources
        [{ classifier := "electricity.consumption", resourceId := "E1" },
         { classifier := "gas.consumption", resourceId := "G1" },
         { classifier := "electricity.consumption.cost", resourceId := "E2" }]
        { sampleState with token := sampleAuth.token,
                           accountId := sampleAuth.accountId,
                           expiration := sampleAuth.exp,
                           functionalGroupAccounts :=
                             sampleAuth.functionalGroupAccounts,
                           userGroups := sampleAuth.userGroups }).accountId =
      sampleAuth.accountId ∧
    (processResources
        [{ classifier := "electricity.consumption", resourceId := "E1" },
         { classifier := "gas.consumption", resourceId := "G1" },
         { classifier := "electricity.consumption.cost", resourceId := "E2" }]
        { sampleState with token := sampleAuth.token,
                           accountId := sampleAuth.accountId,
                           expiration := sampleAuth.exp,
                           functionalGroupAccounts :=
                             sampleAuth.functionalGroupAccounts,
                           userGroups := sampleAuth.userGroups }).expiration =
      sampleAuth.exp ∧
    (processResources
        [{ classifier := "electricity.consumption", resourceId := "E1" },
         { classifier := "gas.consumption", resourceId := "G1" },
         { classifier := "electricity.consumption.cost", resourceId := "E2" }]
        { sampleState with token := sampleAuth.token,
                           accountId := sampleAuth.accountId,
                           expiration := sampleAuth.exp,
                           functionalGroupAccounts :=
                             sampleAuth.functionalGroupAccounts,
                           userGroups := sampleAuth.userGroups
        }).functionalGroupAccounts = sampleAuth.functionalGroupAccounts ∧
    (processResources
        [{ classifier := "electricity.consumption", resourceId := "E1" },
         { classifier := "gas.consumption", resourceId := "G1" },
         { classifier := "electricity.consumption.cost", resourceId := "E2" }]
        { sampleState with token := sampleAuth.token,
                           accountId := sampleAuth.accountId,
                           expiration := sampleAuth.exp,
                           functionalGroupAccounts :=
                             sampleAuth.functionalGroupAccounts,
                           userGroups := sampleAuth.userGroups }).userGroups =
      sampleAuth.userGroups ∧
    sampleState.expiration <
      (processResources
        [{ classifier := "electricity.consumption", resourceId := "E1" },
         { classifier := "gas.consumption", resourceId := "G1" },
         { classifier := "electricity.consumption.cost", resourceId := "E2" }]
        { sampleState with token := sampleAuth.token,
                           accountId := sampleAuth.accountId,
                           expiration := sampleAuth.exp,
                           functionalGroupAccounts :=
                             sampleAuth.functionalGroupAccounts,
                           userGroups := sampleAuth.userGroups }).expiration :=
  accessToken_expired_refresh 0 sampleOracle 60 sampleState sampleAuth
    [{ classifier := "electricity.consumption", resourceId := "E1" },
     { classifier := "gas.consumption", resourceId := "G1" },
     { classifier := "electricity.consumption.cost", resourceId := "E2" }]
    (by decide) rfl rfl (by decide)

theorem getLast?_cons_or {α : Type} (a : α) (l : List α) :
    (a :: l).getLast? = l.getLast?.or (some a) := by
  induction l generalizing a with
  | nil => rfl
  | cons b l ih =>
    rw [List.getLast?_cons_cons, ih b]
    cases l.getLast? <;> rfl

/-- The spec's description of what `listResources` records: the
`resourceId` of the last descriptor of the list whose classifier equals
`c` exactly (`none` when no descriptor matches). -/
def lastMatch (c : String) (rs : List Descriptor) : Option String :=
  ((rs.filter (fun d => d.classifier = c)).getLast?).map Descriptor.resourceId

theorem lastMatch_nil (c : String) : lastMatch c [] = Option.none := rfl

theorem lastMatch_cons (c : String) (r : Descriptor) (rs : List Descriptor) :
    lastMatch c (r :: rs) =
      (lastMatch c rs).or
        (if r.classifier = c then some r.resourceId else Option.none) := by
  unfold lastMatch
  rw [List.filter_cons]
  by_cases h : r.classifier = c
  · rw [if_pos (by simp [h]), if_pos h, getLast?_cons_or]
    cases (rs.filter (fun d => decide (d.classifier = c))).getLast? <;> rfl
  · rw [if_neg (by simp [h]), if_neg h]
    cases (rs.filter (fun d => decide (d.classifier = c))).getLast? <;> rfl

theorem processOne_ids (s : GlowState) (r : Descriptor) :
    (processOne s r).elecConsumptionId =
      (if r.classifier = "electricity.consumption" then some r.resourceId
       else Option.none).or s.elecConsumptionId ∧
    (processOne s r).gasConsumptionId =
      (if r.classifier = "gas.consumption" then some r.resourceId
       else Option.none).or s.gasConsumptionId := by
  unfold processOne
  split <;> split <;> simp_all

/-- After the `getResources` loop, each stored consumption identifier is
the `resourceId` of the last descriptor with the matching classifier, the
previously stored value surviving when no descriptor matches. -/
theorem processResources_ids (rs : List Descriptor) (s : GlowState) :
    (processResources rs s).elecConsumptionId =
      (lastMatch ("electricity.consumption") rs).or s.elecConsumptionId ∧
    (processResources rs s).gasConsumptionId =
      (lastMatch ("gas.consumption") rs).or s.gasConsumptionId := by
  induction rs generalizing s with
  | nil => exact ⟨rfl, rfl⟩
  | cons r rs ih =>
    obtain ⟨p1, p2⟩ := processOne_ids s r
    obtain ⟨q1, q2⟩ := ih (processOne s r)
    have step : processResources (r :: rs) s =
        processResources rs (processOne s r) := rfl
    rw [step]
    constructor
    · rw [q1, p1, lastMatch_cons]
      cases lastMatch ("electricity.consumption") rs <;>
        cases h : decide (r.classifier = "electricity.consumption") <;>
          simp_all
    · rw [q2, p2, lastMatch_cons]
      cases lastMatch ("gas.consumption") rs <;>
        cases h : decide (r.classifier = "gas.consumption") <;>
          simp_all

/-- C6: with a valid token, `getResources` returns the full descriptor
list unchanged and records as electricity (resp. gas) identifier the
`resourceId` of the last descriptor whose classifier equals exactly
`"electricity.consumption"` (resp. `"gas.consumption"`), descriptors with
any other classifier being ignored and a missing match leaving the
previously stored identifier in place. -/
theorem getResources_records_ids (fuel : ℕ) (o : Oracle) (now : ℤ)
    (s : GlowState) (rs : List Descriptor) (hv : now < s.expiration)
    (hres : o.resourceResp = some rs) :
    getResourcesM fuel o now s =
      .ok (rs, processResources rs s, [Request.resources]) ∧
    (processResources rs s).elecConsumptionId =
      (lastMatch ("electricity.consumption") rs).or s.elecConsumptionId ∧
    (processResources rs s).gasConsumptionId =
      (lastMatch ("gas.consumption") rs).or s.gasConsumptionId := by
  refine ⟨?_, (processResources_ids rs s).1, (processResources_ids rs s).2⟩
  unfold getResourcesM
  rw [accessTokenM_fast fuel o now s hv, hres]
  rfl

/-- Witness for C6 at the specification's worked example: the listing
`[electricity.consumption ↦ E1, gas.consumption ↦ G1,
electricity.consumption.cost ↦ E2]` processed from a state with no
recorded identifiers. -/
theorem getResources_records_ids_witness :
    getResourcesM 0 sampleOracle 10 freshState =
      .ok ([{ classifier := "electricity.consumption", resourceId := "E1" },
            { classifier := "gas.consumption", resourceId := "G1" },
            { classifier := "electricity.consumption.cost",
              resourceId := "E2" }],
           processResources
             [{ classifier := "electricity.consumption", resourceId := "E1" },
              { classifier := "gas.consumption", resourceId := "G1" },
              { classifier := "electricity.consumption.cost",
                resourceId := "E2" }] freshState,
           [Request.resources]) ∧
    (processResources
        [{ classifier := "electricity.consumption", resourceId := "E1" },
         { classifier := "gas.consumption", resourceId := "G1" },
         { classifier := "electricity.consumption.cost", resourceId := "E2" }]
        freshState).elecConsumptionId =
      (lastMatch ("electricity.consumption")
        [{ classifier := "electricity.consumption", resourceId := "E1" },
         { classifier := "gas.consumption", resourceId := "G1" },
         { classifier := "electricity.consumption.cost",
           resourceId := "E2" }]).or freshState.elecConsumptionId ∧
    (processResources
        [{ classifier := "electricity.consumption", resourceId := "E1" },
         { classifier := "gas.consumption", resourceId := "G1" },
         { classifier := "electricity.consumption.cost", resourceId := "E2" }]
        freshState).gasConsumptionId =
      (lastMatch ("gas.consumption")
        [{ classifier := "electricity.consumption", resourceId := "E1" },
         { classifier := "gas.consumption", resourceId := "G1" },
         { classifier := "electricity.consumption.cost",
           resourceId := "E2" }]).or freshState.gasConsumptionId :=
  getResources_records_ids 0 sampleOracle 10 freshState
    [{ classifier := "electricity.consumption", resourceId := "E1" },
     { classifier := "gas.consumption", resourceId := "G1" },
     { classifier := "electricity.consumption.cost", resourceId := "E2" }]
    (by decide) rfl

theorem getReadingM_fast (fuel : ℕ) (o : Oracle) (now : ℤ) (s : GlowState)
    (id : String) (dfrom dto : ℤ) (period : String) (offset : ℤ)
    (func : String) (hv : now < s.expiration) :
    getReadingM fuel o now s id dfrom dto period offset func =
      .ok (o.readingResp, s,
           [Request.reading id dfrom dto period offset func]) := by
  unfold getReadingM
  rw [accessTokenM_fast fuel o now s hv]
  rfl

theorem getCurResourceM_fast (fuel : ℕ) (o : Oracle) (now : ℤ)
    (s : GlowState) (id : String) (hv : now < s.expiration) :
    getCurResourceM fuel o now s id =
      .ok (o.currentResp, s, [Request.current id]) := by
  unfold getCurResourceM
  rw [accessTokenM_fast fuel o now s hv]
  rfl

theorem getTariffM_fast (fuel : ℕ) (o : Oracle) (now : ℤ) (s : GlowState)
    (whichId : GlowState → Option String) (id : String)
    (hv : now < s.expiration) (hid : whichId s = some id) :
    getTariffM fuel o now s whichId =
      .ok (o.tariffResp, s, [Request.tariff id]) := by
  unfold getTariffM
  rw [accessTokenM_fast fuel o now s hv]
  show (match whichId s with
    | Option.none => Except.error PyErr.attributeError
    | some id => Except.ok (o.tariffResp, s, [] ++ [Request.tariff id])) =
    Except.ok (o.tariffResp, s, [Request.tariff id])
  rw [hid]
  rfl

/-- C7: with a valid token and the stored gas identifier, `getGasCurrent`
issues a reading request over the window `[now − 30min, now]` with period
`PT30M`, offset 0 and aggregation `sum`, then a current-resource request,
then a tariff request; the returned reading is the current-resource
response with its first data point replaced by the window reading's first
data point, `rate` comes from tariff plan-detail index 0, `standing` from
index 1, and `cost = toCost(rate, first data point's value, units)`.  In
particular a current point `[T0, 5]` and a window point `[T1, 7]` yield
first data point `[T1, 7]` (see the witness). -/
theorem getGasCurrent_window_patch (fuel : ℕ) (o : Oracle) (now nowMin : ℤ)
    (s : GlowState) (gid : String) (gu cur : Reading) (tr : TariffResp)
    (td : TariffData) (tp : TariffPlan) (p0 p1 : PlanItem)
    (g0 c0 : ℚ × ℚ) (guRest cRest : List (ℚ × ℚ))
    (tdRest : List TariffData) (tpRest : List TariffPlan)
    (pdRest : List PlanItem)
    (hv : now < s.expiration) (hgid : s.gasConsumptionId = some gid)
    (hgu : o.readingResp = some gu) (hcur : o.currentResp = some cur)
    (hgd : gu.data = g0 :: guRest) (hcd : cur.data = c0 :: cRest)
    (ht : o.tariffResp = some tr) (htd : tr.data = td :: tdRest)
    (htp : td.plan = tp :: tpRest)
    (hpd : tp.planDetail = p0 :: p1 :: pdRest) :
    getGasCurrentM fuel o now nowMin s =
      .ok ({ reading := { cur with data := g0 :: cRest }, rate := p0.rate,
             standing := p1.standing,
             cost := toCost (.float p0.rate) (.float g0.2) cur.units },
           s,
           [Request.reading gid (nowMin - 30) nowMin ("PT30M") 0 ("sum"),
            Request.current gid, Request.tariff gid]) := by
  have h1 := getReadingM_fast fuel o now s gid (nowMin - 30) nowMin ("PT30M")
    0 ("sum") hv
  have h2 := getCurResourceM_fast fuel o now s gid hv
  have h3 : getGasTariffM fuel o now s =
      .ok (o.tariffResp, s, [Request.tariff gid]) := by
    unfold getGasTariffM
    exact getTariffM_fast fuel o now s (fun st => st.gasConsumptionId) gid
      hv hgid
  simp only [getGasCurrentM, hgid, h1, hgu, h2, hcur, hgd, hcd, h3, ht,
    tariffDetail, htd, htp, hpd]
  simp

/-- Witness for C7 at the specification's worked example: current point
`[0, 5]`, window point `[1, 7]`; the combined result's first data point is
`[1, 7]` and the cost is `toCost(rate, 7, "kWh")`. -/
theorem getGasCurrent_window_patch_witness :
    getGasCurrentM 0 sampleOracle 10 600 sampleState =
      .ok ({ reading := { resourceId := "G1", data := [((1 : ℚ), (7 : ℚ))],
                          units := "kWh" },
             rate := 3/20, standing := 1/4,
             cost := toCost (.float (3/20)) (.float 7) "kWh" },
           sampleState,
           [Request.reading ("G1") (600 - 30) 600 ("PT30M") 0 ("sum"),
            Request.current ("G1"), Request.tariff ("G1")]) :=
  getGasCurrent_window_patch 0 sampleOracle 10 600 sampleState ("G1")
    { resourceId := "G1", data := [(1, 7)], units := "kWh" }
    { resourceId := "G1", data := [(0, 5)], units := "kWh" }
    { data := [{ plan := [{ planDetail :=
        [{ rate := 3/20, standing := 0 }, { rate := 0, standing := 1/4 }] }] }] }
    { plan := [{ planDetail :=
        [{ rate := 3/20, standing := 0 }, { rate := 0, standing := 1/4 }] }] }
    { planDetail :=
        [{ rate := 3/20, standing := 0 }, { rate := 0, standing := 1/4 }] }
    { rate := 3/20, standing := 0 } { rate := 0, standing := 1/4 }
    (1, 7) (0, 5) [] [] [] [] []
    (by decide) rfl rfl rfl rfl rfl rfl rfl rfl rfl

/-- C8: with a valid token and the stored gas identifier, `getGasMeterRead`
returns the meter-read response with its first data point's timestamp
replaced by the current-consumption fetch's first timestamp and its value
replaced by the current-consumption fetch's first value times 1000, every
other field of the meter-read response unchanged.  In particular
meter-read point `[T0, 100]` and current point `[T1, 3]` yield `[T1,
3000]` (see the witness). -/
theorem getGasMeterRead_patch (fuel : ℕ) (o : Oracle) (now : ℤ)
    (s : GlowState) (gid : String) (mr cur : Reading) (m0 c0 : ℚ × ℚ)
    (mRest cRest : List (ℚ × ℚ))
    (hv : now < s.expiration) (hgid : s.gasConsumptionId = some gid)
    (hmr : o.meterreadResp = some mr) (hcur : o.currentResp = some cur)
    (hmd : mr.data = m0 :: mRest) (hcd : cur.data = c0 :: cRest) :
    getGasMeterReadM fuel o now s =
      .ok ({ mr with data := (c0.1, c0.2 * 1000) :: mRest }, s,
           [Request.meterread gid, Request.current gid]) := by
  have h2 := getCurResourceM_fast fuel o now s gid hv
  simp only [getGasMeterReadM, accessTokenM_fast fuel o now s hv, hgid, h2,
    hcur, hcd, hmr, hmd]
  simp

/-- Witness for C8 at the specification's worked example: meter-read
point `[0, 100]`, current point `[1, 3]`, result `[1, 3000]`. -/
theorem getGasMeterRead_patch_witness :
    getGasMeterReadM 0
      { sampleOracle with
          currentResp := some { resourceId := "G1", data := [(1, 3)],
                                units := "kWh" } } 10 sampleState =
      .ok ({ resourceId := "G1", data := [((1 : ℚ), (3 : ℚ) * 1000)],
             units := "m3" },
           sampleState, [Request.meterread ("G1"), Request.current ("G1")]) :=
  getGasMeterRead_patch 0
    { sampleOracle with
        currentResp := some { resourceId := "G1", data := [(1, 3)],
                              units := "kWh" } } 10 sampleState ("G1")
    { resourceId := "G1", data := [(0, 100)], units := "m3" }
    { resourceId := "G1", data := [(1, 3)], units := "kWh" }
    (0, 100) (1, 3) [] []
    (by decide) rfl rfl rfl rfl rfl

/-- C9 counterexample: a timeout and a DNS failure are not caught by
`postRequest` — its only handler is `except urllib.error.HTTPError`, and
neither a `URLError` from a failed DNS lookup nor a socket timeout is an
`HTTPError` — so the exception escapes the transport layer instead of an
absent value being returned. -/
theorem postRequest_uncaught_failures :
    postRequestM ℕ TransportOutcome.timeout = .error .timeoutError ∧
    postRequestM ℕ (TransportOutcome.dnsFailure ("name resolution failed")) =
      .error .urlError :=
  ⟨rfl, rfl⟩

/-- C9 amended: `postRequest` catches exactly the non-2xx HTTP failure,
logging the status code and reason and returning an absent value; a DNS
failure or a timeout is not caught at this layer and escapes as an
exception, while a successful response is returned with no log line. -/
theorem postRequest_failure_surface (α : Type) (code : ℤ) (reason : String)
    (v : α) :
    postRequestM α (.success v) = .ok (some v, []) ∧
    postRequestM α (.httpError code reason) =
      .ok (Option.none, [logLine code reason]) ∧
    postRequestM α (.dnsFailure reason) = .error .urlError ∧
    postRequestM α .timeout = .error .timeoutError :=
  ⟨rfl, rfl, rfl, rfl⟩

theorem foldl_processResources_expiration (ls : List (List Descriptor))
    (s : GlowState) :
    (ls.foldl (fun st rs => processResources rs st) s).expiration =
      s.expiration := by
  induction ls generalizing s with
  | nil => rfl
  | cons rs ls ih =>
    exact (ih (processResources rs s)).trans
      (processResources_env rs s).2.2.2.2.2.1

theorem foldl_processResources_no_ids (ls : List (List Descriptor))
    (s : GlowState) (he : s.elecConsumptionId = Option.none)
    (hg : s.gasConsumptionId = Option.none)
    (hno : ∀ rs ∈ ls, ∀ d ∈ rs,
      ¬ d.classifier = "electricity.consumption" ∧
      ¬ d.classifier = "gas.consumption") :
    (ls.foldl (fun st rs => processResources rs st) s).elecConsumptionId =
      Option.none ∧
    (ls.foldl (fun st rs => processResources rs st) s).gasConsumptionId =
      Option.none := by
  induction ls generalizing s with
  | nil => exact ⟨he, hg⟩
  | cons rs ls ih =>
    have hers : lastMatch ("electricity.consumption") rs = Option.none := by
      unfold lastMatch
      have hfil : rs.filter
          (fun d => decide (d.classifier = "electricity.consumption")) = [] := by
        rw [List.filter_eq_nil_iff]
        intro d hd
        simpa using (hno rs (by simp) d hd).1
      rw [hfil]
      rfl
    have hgrs : lastMatch ("gas.consumption") rs = Option.none := by
      unfold lastMatch
      have hfil : rs.filter
          (fun d => decide (d.classifier = "gas.consumption")) = [] := by
        rw [List.filter_eq_nil_iff]
        intro d hd
        simpa using (hno rs (by simp) d hd).2
      rw [hfil]
      rfl
    have he1 : (processResources rs s).elecConsumptionId = Option.none := by
      rw [(processResources_ids rs s).1, hers, he]
      rfl
    have hg1 : (processResources rs s).gasConsumptionId = Option.none := by
      rw [(processResources_ids rs s).2, hgrs, hg]
      rfl
    exact ih (processResources rs s) he1 hg1
      (fun rs' h' d hd => hno rs' (by simp [h']) d hd)

/-- C10: if no descriptor with classifier `"electricity.consumption"` or
`"gas.consumption"` has appeared in any resource-listing response
processed so far, the corresponding identifier attributes are still
unassigned (there is no default), and — with a valid token, so that no
other failure intervenes — every accessor that reads them
(`getElecCurrent`, `getElecTariff`, `getElecMeterRead`, `getGasCurrent`,
`getGasTariff`, `getGasMeterRead`) fails with `AttributeError` instead of
returning a result. -/
theorem unassigned_ids_accessors_raise (ls : List (List Descriptor))
    (s : GlowState) (he : s.elecConsumptionId = Option.none)
    (hg : s.gasConsumptionId = Option.none)
    (hno : ∀ rs ∈ ls, ∀ d ∈ rs,
      ¬ d.classifier = "electricity.consumption" ∧
      ¬ d.classifier = "gas.consumption") :
    (ls.foldl (fun st rs => processResources rs st) s).elecConsumptionId =
      Option.none ∧
    (ls.foldl (fun st rs => processResources rs st) s).gasConsumptionId =
      Option.none ∧
    ∀ (fuel : ℕ) (o : Oracle) (now nowMin : ℤ), now < s.expiration →
      getElecCurrentM fuel o now
          (ls.foldl (fun st rs => processResources rs st) s) =
        .error .attributeError ∧
      getElecTariffM fuel o now
          (ls.foldl (fun st rs => processResources rs st) s) =
        .error .attributeError ∧
      getElecMeterReadM fuel o now
          (ls.foldl (fun st rs => processResources rs st) s) =
        .error .attributeError ∧
      getGasCurrentM fuel o now nowMin
          (ls.foldl (fun st rs => processResources rs st) s) =
        .error .attributeError ∧
      getGasTariffM fuel o now
          (ls.foldl (fun st rs => processResources rs st) s) =
        .error .attributeError ∧
      getGasMeterReadM fuel o now
          (ls.foldl (fun st rs => processResources rs st) s) =
        .error .attributeError := by
  obtain ⟨fe, fg⟩ := foldl_processResources_no_ids ls s he hg hno
  refine ⟨fe, fg, ?_⟩
  intro fuel o now nowMin hv
  have hv' : now <
      (ls.foldl (fun st rs => processResources rs st) s).expiration := by
    rw [foldl_processResources_expiration]
    exact hv
  have htok := accessTokenM_fast fuel o now
    (ls.foldl (fun st rs => processResources rs st) s) hv'
  refine ⟨?_, ?_, ?_, ?_, ?_, ?_⟩
  · simp only [getElecCurrentM, fe]
  · simp only [getElecTariffM, getTariffM, htok, fe]
  · simp only [getElecMeterReadM, htok, fe]
  · simp only [getGasCurrentM, fg]
  · simp only [getGasTariffM, getTariffM, htok, fg]
  · simp only [getGasMeterReadM, htok, fg]

/-- Witness for C10: a state with unassigned identifiers after processing
one listing that only contains the classifier
`"electricity.consumption.cost"`; every accessor raises `AttributeError`
at a concrete clock and oracle. -/
theorem unassigned_ids_accessors_raise_witness :
    ([[{ classifier := "electricity.consumption.cost", resourceId := "E2" }]].foldl
        (fun st rs => processResources rs st) freshState).elecConsumptionId =
      Option.none ∧
    ([[{ classifier := "electricity.consumption.cost", resourceId := "E2" }]].foldl
        (fun st rs => processResources rs st) freshState).gasConsumptionId =
      Option.none ∧
    getElecCurrentM 0 sampleOracle 10
        ([[{ classifier := "electricity.consumption.cost",
             resourceId := "E2" }]].foldl
          (fun st rs => processResources rs st) freshState) =
      .error .attributeError ∧
    getElecTariffM 0 sampleOracle 10
        ([[{ classifier := "electricity.consumption.cost",
             resourceId := "E2" }]].foldl
          (fun st rs => processResources rs st) freshState) =
      .error .attributeError ∧
    getElecMeterReadM 0 sampleOracle 10
        ([[{ classifier := "electricity.consumption.cost",
             resourceId := "E2" }]].foldl
          (fun st rs => processResources rs st) freshState) =
      .error .attributeError ∧
    getGasCurrentM 0 sampleOracle 10 600
        ([[{ classifier := "electricity.consumption.cost",
             resourceId := "E2" }]].foldl
          (fun st rs => processResources rs st) freshState) =
      .error .attributeError ∧
    getGasTariffM 0 sampleOracle 10
        ([[{ classifier := "electricity.consumption.cost",
             resourceId := "E2" }]].foldl
          (fun st rs => processResources rs st) freshState) =
      .error .attributeError ∧
    getGasMeterReadM 0 sampleOracle 10
        ([[{ classifier := "electricity.consumption.cost",
             resourceId := "E2" }]].foldl
          (fun st rs => processResources rs st) freshState) =
      .error .attributeError :=
  have h := unassigned_ids_accessors_raise
    [[{ classifier := "electricity.consumption.cost", resourceId := "E2" }]]
    freshState rfl rfl (by decide)
  have h6 := h.2.2 0 sampleOracle 10 600 (by decide)
  ⟨h.1, h.2.1, h6.1, h6.2.1, h6.2.2.1, h6.2.2.2.1, h6.2.2.2.2.1,
   h6.2.2.2.2.2⟩
